import Mathlib

/-!
Verification of the pdf-to-speech pipeline (src/main.py, src/pdf_reader.py,
src/text_to_speech.py) against its natural-language specification.

Python strings are modelled as `List Char`; Python lists as Lean lists;
fallible Python code (code that can raise) as `Except String`-valued
functions.  Each definition is a shallow embedding of the function of the
same name in the repository; file/line references are given in the doc
comments.
-/

set_option autoImplicit false

namespace PdfToSpeech

/-! ### Python string helpers -/

/-- Characters stripped by Python's `str.strip()` with no argument
    (ASCII whitespace, including vertical tab and form feed). -/
def isPySpace (c : Char) : Bool :=
  c == ' ' || c == '\t' || c == '\n' || c == '\r' || c == '\x0b' || c == '\x0c'

/-- Left part of Python's `str.strip()`: drop leading whitespace. -/
def lstripChars (cs : List Char) : List Char := cs.dropWhile isPySpace

/-- Right part of Python's `str.strip()`: drop trailing whitespace. -/
def rstripChars (cs : List Char) : List Char := (cs.reverse.dropWhile isPySpace).reverse

/-- Python's `str.strip()`: drop leading and trailing whitespace. -/
def pystrip (cs : List Char) : List Char := rstripChars (lstripChars cs)

/-- ASCII case folding of one character, as Python's `str.lower()` does on
    ASCII input. -/
def lowerChar (c : Char) : Char :=
  if 'A' ≤ c ∧ c ≤ 'Z' then Char.ofNat (c.toNat + 32) else c

/-- Python's `str.lower()` (ASCII fragment). -/
def lower (cs : List Char) : List Char := cs.map lowerChar

/-! ### Chunking (src/text_to_speech.py, lines 56-57)

`max_chunk_size = 3000`
`chunks = [text[i : i + max_chunk_size] for i in range(0, len(text), max_chunk_size)]`
-/

/-- Safe chunk size for gTTS (src/text_to_speech.py line 56). -/
def max_chunk_size : Nat := 3000

/-- Left-to-right slicing of `text` into pieces of `max_chunk_size`
    characters; `fuel` bounds the recursion and is instantiated with the
    length of the text. -/
def chunkList : Nat → List Char → List (List Char)
  | _, [] => []
  | 0, _ :: _ => []
  | fuel + 1, c :: cs =>
    (c :: cs).take max_chunk_size :: chunkList fuel ((c :: cs).drop max_chunk_size)

/-- The chunk list of src/text_to_speech.py line 57: slices
    `text[0:3000], text[3000:6000], ...` in order. -/
def chunks (text : List Char) : List (List Char) := chunkList text.length text

theorem chunkList_flatten (fuel : Nat) :
    ∀ text : List Char, text.length ≤ fuel → (chunkList fuel text).flatten = text := by
  induction fuel with
  | zero =>
    intro text h
    cases text with
    | nil => rfl
    | cons c cs => simp at h
  | succ n ih =>
    intro text h
    cases text with
    | nil => rfl
    | cons c cs =>
      rw [chunkList, List.flatten_cons,
        ih ((c :: cs).drop max_chunk_size) (by simp [max_chunk_size] at h ⊢; omega)]
      exact List.take_append_drop _ _

theorem chunkList_length_le (fuel : Nat) :
    ∀ text : List Char, ∀ ch ∈ chunkList fuel text, ch.length ≤ max_chunk_size := by
  induction fuel with
  | zero =>
    intro text ch hch
    cases text with
    | nil => simp [chunkList] at hch
    | cons c cs => simp [chunkList] at hch
  | succ n ih =>
    intro text ch hch
    cases text with
    | nil => simp [chunkList] at hch
    | cons c cs =>
      rw [chunkList, List.mem_cons] at hch
      rcases hch with hch | hch
      · subst hch
        simp
      · exact ih _ ch hch

theorem chunkList_count (fuel : Nat) :
    ∀ text : List Char, text.length ≤ fuel →
      (chunkList fuel text).length =
        (text.length + (max_chunk_size - 1)) / max_chunk_size := by
  induction fuel with
  | zero =>
    intro text h
    cases text with
    | nil => simp [chunkList, max_chunk_size]
    | cons c cs => simp at h
  | succ n ih =>
    intro text h
    cases text with
    | nil => simp [chunkList, max_chunk_size]
    | cons c cs =>
      rw [chunkList, List.length_cons,
        ih ((c :: cs).drop max_chunk_size) (by simp [max_chunk_size] at h ⊢; omega)]
      simp only [List.length_drop, List.length_cons, max_chunk_size]
      omega

/-- C1: the chunking step of `text_to_speech` partitions the text
    losslessly and order-preservingly: the chunks concatenate back to the
    original text, every chunk has length at most `max_chunk_size = 3000`,
    and the number of chunks is `⌈L / 3000⌉` (written with the usual
    ceiling-division formula on naturals) for a text of length `L`. -/
theorem chunks_lossless_partition (text : List Char) :
    (chunks text).flatten = text ∧
    (∀ ch ∈ chunks text, ch.length ≤ max_chunk_size) ∧
    (chunks text).length = (text.length + (max_chunk_size - 1)) / max_chunk_size :=
  ⟨chunkList_flatten text.length text le_rfl,
   chunkList_length_le text.length text,
   chunkList_count text.length text le_rfl⟩

/-- Witness for C1 at a concrete input: a two-character text forms a
    single chunk that reconstructs it. -/
theorem chunks_lossless_partition_witness :
    (chunks "ab".toList).flatten = "ab".toList ∧
    (∀ ch ∈ chunks "ab".toList, ch.length ≤ max_chunk_size) ∧
    (chunks "ab".toList).length =
      ("ab".toList.length + (max_chunk_size - 1)) / max_chunk_size :=
  chunks_lossless_partition "ab".toList

/-! ### Progress file (src/main.py, lines 48-73)

`save_progress` writes one identifier per line (`file.write(f"{item}\n")`);
`load_progress` returns `[]` when the file does not exist and otherwise
strips each line of `readlines()`.  A file is modelled as
`Option (List Char)`: `none` means the file does not exist.
-/

/-- src/main.py lines 48-57: the contents written to the progress file —
    every processed identifier followed by a newline. -/
def save_progress (processed_files : List (List Char)) : List Char :=
  (processed_files.map (fun item => item ++ ['\n'])).flatten

/-- Python's `file.readlines()`: split the contents into lines, each line
    keeping its trailing newline; a last line without a newline is kept as
    is, and an empty file yields no lines.  `acc` holds the characters of
    the current line in reverse. -/
def readlinesAux (acc : List Char) : List Char → List (List Char)
  | [] => if acc.isEmpty then [] else [acc.reverse]
  | c :: rest =>
    if c = '\n' then (acc.reverse ++ ['\n']) :: readlinesAux [] rest
    else readlinesAux (c :: acc) rest

/-- Python's `file.readlines()` on the whole contents. -/
def readlines (contents : List Char) : List (List Char) := readlinesAux [] contents

/-- src/main.py lines 60-73: `[]` when the progress file does not exist,
    otherwise each line of the file stripped of surrounding whitespace. -/
def load_progress (file : Option (List Char)) : List (List Char) :=
  match file with
  | none => []
  | some contents => (readlines contents).map pystrip

theorem readlinesAux_line (item : List Char) (hnl : '\n' ∉ item) :
    ∀ (acc rest : List Char),
      readlinesAux acc (item ++ '\n' :: rest) =
        (acc.reverse ++ item ++ ['\n']) :: readlinesAux [] rest := by
  induction item with
  | nil =>
    intro acc rest
    simp [readlinesAux]
  | cons c item ih =>
    intro acc rest
    have hc : c ≠ '\n' := fun h => hnl (h ▸ List.mem_cons_self _ _)
    have hm : '\n' ∉ item := fun h => hnl (List.mem_cons_of_mem _ h)
    rw [List.cons_append, readlinesAux, if_neg hc, ih hm (c :: acc) rest]
    simp

theorem pystrip_nil : pystrip [] = [] := rfl

theorem lstripChars_eq_nil_of_pystrip_eq_self {item : List Char}
    (h : pystrip item = item) (h0 : lstripChars item = []) : item = [] := by
  have : pystrip item = [] := by
    rw [pystrip, h0]
    rfl
  rw [h] at this
  exact this

theorem rstripChars_append_newline (x : List Char) :
    rstripChars (x ++ ['\n']) = rstripChars x := by
  rw [rstripChars, rstripChars, List.reverse_append]
  simp [List.dropWhile, isPySpace]

theorem pystrip_append_newline {item : List Char} (h : pystrip item = item) :
    pystrip (item ++ ['\n']) = item := by
  by_cases h0 : lstripChars item = []
  · have : item = [] := lstripChars_eq_nil_of_pystrip_eq_self h h0
    subst this
    rfl
  · rw [pystrip, lstripChars, List.dropWhile_append]
    have hne : (List.dropWhile isPySpace item).isEmpty = false := by
      rw [lstripChars] at h0
      cases hx : List.dropWhile isPySpace item with
      | nil => exact absurd hx h0
      | cons a l => rfl
    rw [hne]
    simp only [Bool.false_eq_true, if_false]
    rw [rstripChars_append_newline]
    exact h

/-- C10: writing a list of identifiers (non-empty, newline-free, with no
    surrounding whitespace) with `save_progress` and reading it back with
    `load_progress` returns exactly the same list in the same order. -/
theorem load_save_progress_round_trip (items : List (List Char))
    (h : ∀ item ∈ items, item ≠ [] ∧ '\n' ∉ item ∧ pystrip item = item) :
    load_progress (some (save_progress items)) = items := by
  induction items with
  | nil => rfl
  | cons item rest ih =>
    obtain ⟨-, hnl, hstrip⟩ := h item (List.mem_cons_self _ _)
    have hrest := ih fun x hx => h x (List.mem_cons_of_mem _ hx)
    have hsave :
        save_progress (item :: rest) = item ++ '\n' :: save_progress rest := by
      rw [save_progress, List.map_cons, List.flatten_cons]
      simp [save_progress]
    rw [load_progress, hsave, readlines, readlinesAux_line item hnl]
    simp only [List.reverse_nil, List.nil_append, List.map_cons]
    rw [pystrip_append_newline hstrip]
    rw [load_progress, readlines] at hrest
    rw [hrest]

/-- Witness for C10 at a concrete input: two well-formed identifiers
    round-trip through the progress file. -/
theorem load_save_progress_round_trip_witness :
    load_progress (some (save_progress ["a.pdf".toList, "b 2.pdf".toList])) =
      ["a.pdf".toList, "b 2.pdf".toList] :=
  load_save_progress_round_trip ["a.pdf".toList, "b 2.pdf".toList] (by decide)

/-! ### Chapter segmentation (src/pdf_reader.py, lines 51-81)

`extract_chapters` iterates over the pages of the document; for every page
it sorts the text blocks by `(b[1], b[0])` (vertical, then horizontal
position) and scans them against
`chapter_pattern = re.compile(r'(chapter|section|part)\s+\d+', re.IGNORECASE)`.

The chapter buffer `current_chapter` is initialised to the *string* `""`
(line 61) but reset to the *list* `[]` on a flush, and blocks are added
with `current_chapter.append(...)` — a list method that a `str` does not
have.  The embedding keeps this dynamic typing: the buffer is a sum of the
two Python types, and `append` on the string variant raises
`AttributeError`, as Python does.
-/

/-- One entry of `page.get_text("blocks")`: `b[0]`/`b[1]` are the
    horizontal/vertical coordinates used as the sort key, `b[4]` is the
    block's text. -/
structure PdfBlock where
  x0 : Int
  y0 : Int
  btext : List Char
deriving DecidableEq

/-- Strict lexicographic comparison of the Python sort key
    `(b[1], b[0])`. -/
def blockKeyLT (a b : PdfBlock) : Bool :=
  a.y0 < b.y0 || (a.y0 == b.y0 && a.x0 < b.x0)

/-- Stable insertion of a block into an already-sorted list: the block
    goes in front of the first element that is not strictly below it. -/
def insertBlock (b : PdfBlock) : List PdfBlock → List PdfBlock
  | [] => [b]
  | c :: rest => if blockKeyLT c b then c :: insertBlock b rest else b :: c :: rest

/-- Python's stable `sorted(blocks, key=lambda b: (b[1], b[0]))`
    (src/pdf_reader.py lines 66-68). -/
def sortBlocks : List PdfBlock → List PdfBlock
  | [] => []
  | b :: rest => insertBlock b (sortBlocks rest)

/-- `\s+\d+` continued after the first whitespace character: further
    whitespace is allowed, and the first non-whitespace character must be
    an ASCII digit (anything may follow it). -/
def spacesThenDigit : List Char → Bool
  | [] => false
  | c :: rest => if isPySpace c then spacesThenDigit rest else c.isDigit

/-- The regex fragment `\s+\d+`: at least one whitespace character, then
    at least one digit. -/
def wsThenDigits : List Char → Bool
  | [] => false
  | c :: rest => isPySpace c && spacesThenDigit rest

/-- `keyword` followed by `\s+\d+` at the start of `cs`, ignoring case. -/
def matchKeywordNum (keyword : String) (cs : List Char) : Bool :=
  let k := keyword.toList
  decide (lower (cs.take k.length) = k) && wsThenDigits (cs.drop k.length)

/-- `chapter_pattern.match(...)` (src/pdf_reader.py line 62): a
    case-insensitive match of `(chapter|section|part)\s+\d+` anchored at
    the start of the text. -/
def chapter_pattern_match (cs : List Char) : Bool :=
  matchKeywordNum "chapter" cs || matchKeywordNum "section" cs ||
    matchKeywordNum "part" cs

/-- The Python chapter buffer: a `str` when freshly initialised
    (line 61), a `list` after any flush (lines 73 and 79). -/
inductive PyBuf where
  | pystr (s : List Char)
  | pylist (l : List (List Char))
deriving DecidableEq

/-- Python truthiness of the buffer (`if current_chapter:`). -/
def PyBuf.truthy : PyBuf → Bool
  | .pystr s => !s.isEmpty
  | .pylist l => !l.isEmpty

/-- `current_chapter.append(block_text)`: a list grows at the right; a
    `str` has no `append` method, so Python raises `AttributeError`. -/
def PyBuf.appendItem : PyBuf → List Char → Except String PyBuf
  | .pystr _, _ => .error "AttributeError: 'str' object has no attribute 'append'"
  | .pylist l, x => .ok (.pylist (l ++ [x]))

/-- `"\n".join(current_chapter)`: joining a list joins its elements;
    joining a `str` joins its characters. -/
def PyBuf.joinNL : PyBuf → List Char
  | .pystr s => List.intercalate ['\n'] (s.map (fun c => [c]))
  | .pylist l => List.intercalate ['\n'] l

/-- The loop state of `extract_chapters`: the completed `chapters` list
    and the `current_chapter` buffer. -/
structure ChapterState where
  chapters : List (List Char)
  current : PyBuf
deriving DecidableEq

/-- The body of the inner block loop (src/pdf_reader.py lines 69-74). -/
def processBlock (st : ChapterState) (b : PdfBlock) : Except String ChapterState := do
  let block_text := pystrip b.btext
  let st :=
    if !block_text.isEmpty && chapter_pattern_match (lower block_text) then
      if st.current.truthy then
        { chapters := st.chapters ++ [pystrip st.current.joinNL],
          current := .pylist [] }
      else st
    else st
  let cur ← st.current.appendItem block_text
  pure { st with current := cur }

/-- One page of the outer loop: scan the sorted blocks, then flush a
    truthy buffer at the end of the page (src/pdf_reader.py lines 64-79). -/
def processPage (st : ChapterState) (blocks : List PdfBlock) :
    Except String ChapterState := do
  let st ← (sortBlocks blocks).foldlM processBlock st
  if st.current.truthy then
    pure { chapters := st.chapters ++ [pystrip st.current.joinNL],
           current := .pylist [] }
  else
    pure st

/-- src/pdf_reader.py lines 51-81: `extract_chapters` over the pages of a
    document, each page given as its block list. -/
def extract_chapters (pages : List (List PdfBlock)) :
    Except String (List (List Char)) := do
  let st ← pages.foldlM processPage { chapters := [], current := .pystr [] }
  pure st.chapters

/-- C3 (code evaluated at the failing input): on a one-page document with
    a single text block, `extract_chapters` raises `AttributeError`
    instead of accumulating the block — `current_chapter` is initialised
    to the string `""`, which has no `append` method. -/
theorem extract_chapters_first_block_attribute_error :
    extract_chapters [[⟨0, 0, "Hello world".toList⟩]] =
      .error "AttributeError: 'str' object has no attribute 'append'" := by
  rfl

/-! ### Text and metadata extraction (src/pdf_reader.py, lines 12-48) -/

/-- `doc.metadata`: the PDF's own metadata dictionary; `none` models an
    absent key, so `doc.metadata.get(key, default)` is `Option.getD`. -/
structure PdfMeta where
  title : Option (List Char)
  author : Option (List Char)
deriving DecidableEq

/-- One PDF page: `text` is `page.get_text()` and `blocks` is
    `page.get_text("blocks")`. -/
structure PdfPage where
  text : List Char
  blocks : List PdfBlock
deriving DecidableEq

/-- A successfully opened PDF document (`fitz.open`). -/
structure PdfDoc where
  pages : List PdfPage
  meta : PdfMeta
deriving DecidableEq

/-- The metadata record returned by
    `extract_text_and_metadata_from_pdf`. -/
structure DocMetadata where
  title : List Char
  author : List Char
deriving DecidableEq

/-- The sentinel author `'Unknown Author'`. -/
def unknown_author : List Char := "Unknown Author".toList

/-- Python's `os.path.basename`: everything after the last `/`. -/
def os_path_basename (p : List Char) : List Char :=
  (p.reverse.takeWhile (fun c => c ≠ '/')).reverse

/-- `os.path.splitext(os.path.basename(p))[0]`: the base filename with its
    extension removed; leading dots of the name never start an
    extension. -/
def base_filename_of (p : List Char) : List Char :=
  let name := os_path_basename p
  let dots := name.takeWhile (fun c => c = '.')
  let rest := name.drop dots.length
  if rest.any (fun c => c = '.') then
    dots ++ ((rest.reverse.dropWhile (fun c => c ≠ '.')).drop 1).reverse
  else name

/-- src/pdf_reader.py lines 12-48: extraction of the text segments and the
    metadata of a document.  The outcome of `fitz.open(pdf_path)` is passed
    in as `opened` (`.error` models a raised exception); any exception —
    from opening the file or from `extract_chapters` — is caught by the
    `except` clause of lines 40-45, which returns an empty segment list
    and defaulted metadata. -/
def extract_text_and_metadata_from_pdf (pdf_path : List Char)
    (opened : Except String PdfDoc) (segment_by_chapter : Bool) :
    List (List Char) × DocMetadata :=
  match opened with
  | .error _ => ([], ⟨base_filename_of pdf_path, unknown_author⟩)
  | .ok doc =>
    let metadata : DocMetadata :=
      ⟨doc.meta.title.getD (base_filename_of pdf_path),
       doc.meta.author.getD unknown_author⟩
    if segment_by_chapter then
      match extract_chapters (doc.pages.map PdfPage.blocks) with
      | .error _ => ([], ⟨base_filename_of pdf_path, unknown_author⟩)
      | .ok chapters => (chapters, metadata)
    else
      ([List.intercalate ['\n'] (doc.pages.map PdfPage.text)], metadata)

/-- C2: with segmentation disabled, extraction of any successfully opened
    document returns exactly one text segment, and that segment is the
    newline-joined concatenation of all page texts in page order. -/
theorem extract_disabled_single_segment (pdf_path : List Char) (doc : PdfDoc) :
    (extract_text_and_metadata_from_pdf pdf_path (.ok doc) false).1 =
      [List.intercalate ['\n'] (doc.pages.map PdfPage.text)] ∧
    (extract_text_and_metadata_from_pdf pdf_path (.ok doc) false).1.length = 1 :=
  ⟨rfl, rfl⟩

/-- C8: when the document cannot be opened or read, extraction returns an
    empty segment list and a metadata record whose title is the document's
    base filename and whose author is `'Unknown Author'`; concretely, the
    path `input_files/book.pdf` defaults to the title `book`. -/
theorem extract_error_defaults (pdf_path : List Char) (err : String)
    (segment_by_chapter : Bool) :
    extract_text_and_metadata_from_pdf pdf_path (.error err) segment_by_chapter =
      ([], ⟨base_filename_of pdf_path, unknown_author⟩) ∧
    base_filename_of "input_files/book.pdf".toList = "book".toList :=
  ⟨rfl, by decide⟩

/-! ### Metadata merge (src/main.py, line 115)

`metadata = {**extracted_metadata, **(user_metadata or {})}` — a Python
dict merge.  Dicts are modelled as insertion-ordered association lists;
merging folds the right dict into the left one key by key, replacing the
value of an existing key in place and appending a new key at the end,
exactly as `{**a, **b}` behaves.
-/

/-- Setting one key of a Python dict: replace in place when the key is
    present, append otherwise. -/
def dictSet (d : List (String × String)) (k v : String) :
    List (String × String) :=
  if d.any (fun p => p.1 == k) then
    d.map (fun p => if p.1 == k then (k, v) else p)
  else d ++ [(k, v)]

/-- The Python dict merge `{**a, **b}` of src/main.py line 115. -/
def dictMerge (a b : List (String × String)) : List (String × String) :=
  b.foldl (fun acc p => dictSet acc p.1 p.2) a

/-- C7: merging extracted metadata `{title: 'A', author: 'B'}` with
    caller-supplied metadata `{title: 'C'}` overrides field by field: the
    result is `{title: 'C', author: 'B'}` — the caller's title replaces the
    extracted one, the extracted author survives, and nothing else is
    touched. -/
theorem metadata_merge_field_override :
    dictMerge [("title", "A"), ("author", "B")] [("title", "C")] =
      [("title", "C"), ("author", "B")] := by
  rfl

/-! ### Output naming and empty-segment skipping (src/main.py, lines 118-156)

`pdf_to_speech` extracts the segments (modelled above), merges the
metadata (modelled above) and then names and produces the output files:
one file `{output_dir}/{base_filename}.{format}` when there is exactly one
segment — synthesised unconditionally — and otherwise one file
`{output_dir}/{base_filename}_segment_{i+1}.{format}` per segment whose
stripped text is non-empty, a whitespace-only segment being logged as a
skip.  The model records the produced file names and the skipped 1-based
segment indices.
-/

/-- The single-segment output name of src/main.py line 121. -/
def output_file_single (pdf_path output_dir fmt : String) : String :=
  output_dir ++ "/" ++ String.mk (base_filename_of pdf_path.toList) ++ "." ++ fmt

/-- The multi-segment output name of src/main.py lines 139-141 for the
    1-based segment index `n`. -/
def output_file_segment (pdf_path output_dir fmt : String) (n : Nat) : String :=
  output_dir ++ "/" ++ String.mk (base_filename_of pdf_path.toList) ++
    "_segment_" ++ toString n ++ "." ++ fmt

/-- The observable outcome of `pdf_to_speech`: the output files written,
    in order, and the 1-based indices of the skipped segments. -/
structure SpeechRun where
  outputs : List String
  skips : List Nat
deriving DecidableEq

/-- The `enumerate(text_segments)` loop of src/main.py lines 134-156;
    `i` is the 0-based index of the first segment of the remaining list. -/
def segmentLoop (pdf_path output_dir fmt : String) (i : Nat) :
    List (List Char) → SpeechRun
  | [] => ⟨[], []⟩
  | seg :: remaining =>
    let r := segmentLoop pdf_path output_dir fmt (i + 1) remaining
    if !(pystrip seg).isEmpty then
      ⟨output_file_segment pdf_path output_dir fmt (i + 1) :: r.outputs, r.skips⟩
    else
      ⟨r.outputs, (i + 1) :: r.skips⟩

/-- src/main.py lines 118-156: output naming.  Exactly one segment: the
    base name alone, no emptiness check.  Any other number of segments:
    the indexed loop. -/
def pdf_to_speech_run (pdf_path output_dir fmt : String)
    (text_segments : List (List Char)) : SpeechRun :=
  if text_segments.length = 1 then
    ⟨[output_file_single pdf_path output_dir fmt], []⟩
  else
    segmentLoop pdf_path output_dir fmt 0 text_segments

/-- C6, counterexample: a document whose only segment is whitespace-only
    still produces an output file — the single-segment branch of
    `pdf_to_speech` has no emptiness check — where the claim promises no
    output file and a recorded skip. -/
theorem pdf_to_speech_whitespace_single_segment_cex :
    pdf_to_speech_run "input_files/book.pdf" "output_files" "mp3" [[' ']] =
      ⟨["output_files/book.mp3"], []⟩ := by
  rfl

/-- C6, amended: with exactly one segment the output is named by the base
    filename alone *regardless of the segment's content*; with two
    segments, each segment with non-whitespace content yields the output
    named with its 1-based index, and a whitespace-only segment yields no
    file and its index is recorded as a skip. -/
theorem pdf_to_speech_naming (pdf_path output_dir fmt : String)
    (s t : List Char) :
    (pdf_to_speech_run pdf_path output_dir fmt [s]).outputs =
      [output_file_single pdf_path output_dir fmt] ∧
    ((pystrip s).isEmpty = false → (pystrip t).isEmpty = false →
      pdf_to_speech_run pdf_path output_dir fmt [s, t] =
        ⟨[output_file_segment pdf_path output_dir fmt 1,
          output_file_segment pdf_path output_dir fmt 2], []⟩) ∧
    ((pystrip s).isEmpty = false → (pystrip t).isEmpty = true →
      pdf_to_speech_run pdf_path output_dir fmt [s, t] =
        ⟨[output_file_segment pdf_path output_dir fmt 1], [2]⟩) := by
  refine ⟨rfl, fun hs ht => ?_, fun hs ht => ?_⟩ <;>
    simp [pdf_to_speech_run, segmentLoop, hs, ht]

/-- Witness for C6 at concrete inputs: `book.pdf` with two non-empty
    segments yields `book_segment_1.mp3` and `book_segment_2.mp3`; with a
    whitespace-only second segment it yields only `book_segment_1.mp3` and
    the skip index 2. -/
theorem pdf_to_speech_naming_witness :
    pdf_to_speech_run "input_files/book.pdf" "output_files" "mp3"
        ["Hello".toList, "World".toList] =
      ⟨["output_files/book_segment_1.mp3", "output_files/book_segment_2.mp3"],
       []⟩ ∧
    pdf_to_speech_run "input_files/book.pdf" "output_files" "mp3"
        ["Hello".toList, [' ']] =
      ⟨["output_files/book_segment_1.mp3"], [2]⟩ :=
  ⟨(pdf_to_speech_naming "input_files/book.pdf" "output_files" "mp3"
      "Hello".toList "World".toList).2.1 (by decide) (by decide),
   (pdf_to_speech_naming "input_files/book.pdf" "output_files" "mp3"
      "Hello".toList [' ']).2.2 (by decide) (by decide)⟩

/-! ### Batch runner (src/main.py, lines 159-206)

`process_multiple_files` loads the progress record, filters out the files
already listed there, and then runs `pdf_to_speech` on each remaining file
in order, appending the file to the in-memory list and rewriting the
progress file after each completed document; when the loop finishes it
deletes the progress file.  There is no `try`/`except` around
`pdf_to_speech`, so an exception raised while converting one document
propagates and ends the run.

The model abstracts a document's conversion as the predicate `ok` (`true`:
`pdf_to_speech` returns, `false`: it raises) and the progress file as
`Option (List String)` (`none`: the file does not exist).  The result
records whether the run ended by an exception, the final progress file,
the documents whose conversion completed, and the successive contents
written by `save_progress`.
-/

/-- The observable outcome of one `process_multiple_files` run. -/
structure BatchResult where
  crashed : Bool
  progressFile : Option (List String)
  converted : List String
  saves : List (List String)
deriving DecidableEq

/-- The `for pdf_file in files_to_process` loop of src/main.py
    lines 190-206, followed by `clear_progress`.  `fileSt` is the current
    progress file, `processed` the in-memory `processed_files` list. -/
def batchLoop (ok : String → Bool) (fileSt : Option (List String))
    (processed : List String) (conv : List String)
    (saves : List (List String)) : List String → BatchResult
  | [] => ⟨false, none, conv, saves⟩
  | f :: rest =>
    if ok f then
      batchLoop ok (some (processed ++ [f])) (processed ++ [f])
        (conv ++ [f]) (saves ++ [processed ++ [f]]) rest
    else
      ⟨true, fileSt, conv, saves⟩

/-- The work set: the requested files minus those already listed in the
    loaded progress record (src/main.py line 184). -/
def work_set (files processed : List String) : List String :=
  files.filter (fun f => !(processed.contains f))

/-- src/main.py lines 159-206: one batch invocation over `files` with the
    initial progress file `initFile`.  An empty work set returns early
    without touching the progress file. -/
def process_multiple_files (ok : String → Bool) (files : List String)
    (initFile : Option (List String)) : BatchResult :=
  if (work_set files (initFile.getD [])).isEmpty then ⟨false, initFile, [], []⟩
  else batchLoop ok initFile (initFile.getD []) [] []
    (work_set files (initFile.getD []))

theorem batchLoop_all_ok (ok : String → Bool) :
    ∀ (l : List String) (fileSt : Option (List String))
      (processed conv : List String) (saves : List (List String)),
      (∀ f ∈ l, ok f = true) →
      batchLoop ok fileSt processed conv saves l =
        ⟨false, none, conv ++ l,
         saves ++ (List.range l.length).map (fun i => processed ++ l.take (i + 1))⟩ := by
  intro l
  induction l with
  | nil =>
    intro fileSt processed conv saves h
    simp [batchLoop]
  | cons f rest ih =>
    intro fileSt processed conv saves h
    rw [batchLoop, if_pos (h f (List.mem_cons_self _ _)),
      ih _ _ _ _ (fun g hg => h g (List.mem_cons_of_mem _ hg))]
    simp [List.range_succ_eq_map, List.map_map, Function.comp_def,
      List.take_succ_cons]

theorem batchLoop_first_failure (ok : String → Bool) :
    ∀ (done : List String) (fileSt : Option (List String))
      (processed conv : List String) (saves : List (List String))
      (f : String) (rest : List String),
      (∀ d ∈ done, ok d = true) → ok f = false →
      batchLoop ok fileSt processed conv saves (done ++ f :: rest) =
        ⟨true, if done.isEmpty then fileSt else some (processed ++ done),
         conv ++ done,
         saves ++ (List.range done.length).map
           (fun i => processed ++ done.take (i + 1))⟩ := by
  intro done
  induction done with
  | nil =>
    intro fileSt processed conv saves f rest h hf
    simp [batchLoop, hf]
  | cons d done ih =>
    intro fileSt processed conv saves f rest h hf
    rw [List.cons_append, batchLoop, if_pos (h d (List.mem_cons_self _ _)),
      ih _ _ _ _ f rest (fun g hg => h g (List.mem_cons_of_mem _ hg)) hf]
    cases done with
    | nil => simp
    | cons e done =>
      simp [List.range_succ_eq_map, List.map_map, Function.comp_def,
        List.take_succ_cons]

/-- C5: a batch invocation whose work set (the requested files minus those
    already listed in the progress record) is non-empty and fully succeeds
    skips exactly the recorded documents, converts exactly the work set in
    order, persists after the `i`-th completed document the loaded record
    extended by the first `i + 1` work-set entries (an append right after
    each completion), and deletes the progress record at the end. -/
theorem process_multiple_files_resume (ok : String → Bool)
    (files : List String) (initFile : Option (List String))
    (hne : work_set files (initFile.getD []) ≠ [])
    (hok : ∀ f ∈ work_set files (initFile.getD []), ok f = true) :
    process_multiple_files ok files initFile =
      ⟨false, none, work_set files (initFile.getD []),
       (List.range (work_set files (initFile.getD [])).length).map
         (fun i => initFile.getD [] ++
           (work_set files (initFile.getD [])).take (i + 1))⟩ := by
  rw [process_multiple_files, if_neg (by simpa [List.isEmpty_iff] using hne),
    batchLoop_all_ok ok _ _ _ _ _ hok]
  simp

/-- Witness for C5 at a concrete input: with `a.pdf` already recorded,
    only `b.pdf` is processed, the record is rewritten once as
    `[a.pdf, b.pdf]`, and the progress file is gone at the end. -/
theorem process_multiple_files_resume_witness :
    process_multiple_files (fun _ => true) ["a.pdf", "b.pdf"]
        (some ["a.pdf"]) =
      ⟨false, none, ["b.pdf"], [["a.pdf", "b.pdf"]]⟩ :=
  process_multiple_files_resume (fun _ => true) ["a.pdf", "b.pdf"]
    (some ["a.pdf"]) (by decide) (by decide)

/-- C4, counterexample: in a three-document batch where the second
    document's synthesis raises, the run ends in the exception (it is not
    caught anywhere in `process_multiple_files`) and the third document is
    never processed — the claim promises no crash and a continuing
    batch. -/
theorem process_multiple_files_failure_cex :
    (process_multiple_files (fun g => !(g == "b.pdf"))
        ["a.pdf", "b.pdf", "c.pdf"] none).crashed = true ∧
    (process_multiple_files (fun g => !(g == "b.pdf"))
        ["a.pdf", "b.pdf", "c.pdf"] none).converted = ["a.pdf"] := by
  decide

/-- C4, amended: when a document `f` of the work set fails, the documents
    before it are converted and checkpointed, `f` gets no progress-record
    entry (neither in any intermediate save nor in the final file), and
    the run stops there: the exception propagates, nothing after `f` is
    converted, and the progress record is left in place (still holding the
    completed documents) rather than cleared. -/
theorem process_multiple_files_failure_halts (ok : String → Bool)
    (files : List String) (initFile : Option (List String))
    (done : List String) (f : String) (rest : List String)
    (hsplit : work_set files (initFile.getD []) = done ++ f :: rest)
    (hdone : ∀ d ∈ done, ok d = true) (hf : ok f = false) :
    (process_multiple_files ok files initFile).crashed = true ∧
    (process_multiple_files ok files initFile).converted = done ∧
    (process_multiple_files ok files initFile).progressFile =
      (if done.isEmpty then initFile else some (initFile.getD [] ++ done)) ∧
    (∀ s ∈ (process_multiple_files ok files initFile).saves, f ∉ s) ∧
    f ∉ (process_multiple_files ok files initFile).progressFile.getD [] := by
  have hfws : f ∈ work_set files (initFile.getD []) := by
    rw [hsplit]
    exact List.mem_append_right _ (List.mem_cons_self _ _)
  have hfproc : f ∉ initFile.getD [] := by
    rw [work_set, List.mem_filter] at hfws
    simpa using hfws.2
  have hfdone : f ∉ done := fun hd => by
    rw [hdone f hd] at hf
    exact Bool.true_eq_false.mp hf
  have hrun : process_multiple_files ok files initFile =
      ⟨true, if done.isEmpty then initFile else some (initFile.getD [] ++ done),
       done,
       (List.range done.length).map
         (fun i => initFile.getD [] ++ done.take (i + 1))⟩ := by
    rw [process_multiple_files, if_neg (by simp [hsplit]), hsplit,
      batchLoop_first_failure ok done initFile _ _ _ f rest hdone hf]
    simp
  rw [hrun]
  refine ⟨rfl, rfl, rfl, ?_, ?_⟩
  · intro s hs hfs
    obtain ⟨i, -, rfl⟩ := List.mem_map.mp hs
    rcases List.mem_append.mp hfs with hmem | hmem
    · exact hfproc hmem
    · exact hfdone (List.take_subset _ _ hmem)
  · cases hde : done.isEmpty with
    | true => simpa [hde] using hfproc
    | false =>
      simp only [hde, Bool.false_eq_true, if_false, Option.getD_some]
      intro hmem
      rcases List.mem_append.mp hmem with hmem | hmem
      · exact hfproc hmem
      · exact hfdone hmem

/-- Witness for C4's amended statement at a concrete input: with `z.pdf`
    recorded and `b.pdf` failing, the run crashes after converting only
    `a.pdf` and leaves the progress record holding `z.pdf` and `a.pdf`. -/
theorem process_multiple_files_failure_halts_witness :
    (process_multiple_files (fun g => !(g == "b.pdf"))
        ["z.pdf", "a.pdf", "b.pdf", "c.pdf"] (some ["z.pdf"])).crashed = true ∧
    (process_multiple_files (fun g => !(g == "b.pdf"))
        ["z.pdf", "a.pdf", "b.pdf", "c.pdf"]
        (some ["z.pdf"])).converted = ["a.pdf"] ∧
    (process_multiple_files (fun g => !(g == "b.pdf"))
        ["z.pdf", "a.pdf", "b.pdf", "c.pdf"]
        (some ["z.pdf"])).progressFile = some ["z.pdf", "a.pdf"] :=
  ⟨(process_multiple_files_failure_halts (fun g => !(g == "b.pdf"))
      ["z.pdf", "a.pdf", "b.pdf", "c.pdf"] (some ["z.pdf"])
      ["a.pdf"] "b.pdf" ["c.pdf"] (by decide) (by decide) (by decide)).1,
   (process_multiple_files_failure_halts (fun g => !(g == "b.pdf"))
      ["z.pdf", "a.pdf", "b.pdf", "c.pdf"] (some ["z.pdf"])
      ["a.pdf"] "b.pdf" ["c.pdf"] (by decide) (by decide) (by decide)).2.1,
   (process_multiple_files_failure_halts (fun g => !(g == "b.pdf"))
      ["z.pdf", "a.pdf", "b.pdf", "c.pdf"] (some ["z.pdf"])
      ["a.pdf"] "b.pdf" ["c.pdf"] (by decide) (by decide) (by decide)).2.2.1⟩

/-! ### Transient chunk files (src/text_to_speech.py, lines 59-76)

For each chunk `i` the loop body runs
`tts.save(chunk_file)` — creating `..._chunk_{i+1}.{format}` —
then loads the clip and finally `os.remove(chunk_file)`.  There is no
`try`/`finally`: an exception from a chunk's synthesis/save step aborts the
call before the chunk's file exists, and an exception from the
audio-loading step aborts it after the file was written but before the
`os.remove` for it runs.

The model runs the loop over `chunks text` with an oracle giving each
chunk's outcome, and records whether the loop finished and which chunk
files (named by their 1-based index) still exist when the call exits.
-/

/-- The possible outcomes of one chunk iteration. -/
inductive ChunkOutcome where
  /-- Synthesis, save, audio load and remove all succeed. -/
  | ok
  /-- `gTTS(...)`/`tts.save(...)` raises: no chunk file was written. -/
  | saveFails
  /-- `AudioSegment.from_mp3`/`from_file` raises: the chunk file was
      written and is never removed. -/
  | loadFails
deriving DecidableEq

/-- The files left on disk by one `text_to_speech` call. -/
structure TtsFiles where
  finished : Bool
  leftover : List Nat
deriving DecidableEq

/-- The chunk loop of src/text_to_speech.py lines 62-73 starting at chunk
    index `i` (0-based); each completed iteration removes its own file. -/
def ttsChunkLoop (outcome : Nat → ChunkOutcome) : Nat → List (List Char) → TtsFiles
  | _, [] => ⟨true, []⟩
  | i, _ :: rest =>
    match outcome i with
    | .ok => ttsChunkLoop outcome (i + 1) rest
    | .saveFails => ⟨false, []⟩
    | .loadFails => ⟨false, [i + 1]⟩

/-- The transient-file behaviour of `text_to_speech` on `text`: run the
    chunk loop over `chunks text`. -/
def text_to_speech_chunk_files (text : List Char)
    (outcome : Nat → ChunkOutcome) : TtsFiles :=
  ttsChunkLoop outcome 0 (chunks text)

theorem ttsChunkLoop_leftover_le_one (outcome : Nat → ChunkOutcome) :
    ∀ (l : List (List Char)) (i : Nat),
      (ttsChunkLoop outcome i l).leftover.length ≤ 1 := by
  intro l
  induction l with
  | nil =>
    intro i
    simp [ttsChunkLoop]
  | cons c rest ih =>
    intro i
    rw [ttsChunkLoop]
    cases outcome i with
    | ok => exact ih (i + 1)
    | saveFails => simp
    | loadFails => simp

theorem ttsChunkLoop_all_ok (outcome : Nat → ChunkOutcome)
    (hok : ∀ i, outcome i = ChunkOutcome.ok) :
    ∀ (l : List (List Char)) (i : Nat), ttsChunkLoop outcome i l = ⟨true, []⟩ := by
  intro l
  induction l with
  | nil =>
    intro i
    rfl
  | cons c rest ih =>
    intro i
    rw [ttsChunkLoop, hok i]
    exact ih (i + 1)

/-- C9, counterexample: on a 3001-character text — two chunks — where the
    first chunk succeeds and the second chunk's audio-loading step fails,
    the second chunk's file outlives the `text_to_speech` call (there is no
    `try`/`finally` around the loop), where the claim promises that every
    created chunk file is removed on every exit path. -/
theorem text_to_speech_chunk_file_leak_cex :
    text_to_speech_chunk_files (List.replicate 3001 'a')
        (fun i => if i = 0 then ChunkOutcome.ok else ChunkOutcome.loadFails) =
      ⟨false, [2]⟩ ∧
    (text_to_speech_chunk_files (List.replicate 3001 'a')
        (fun i => if i = 0 then ChunkOutcome.ok else ChunkOutcome.loadFails)).leftover ≠
      [] := by
  have hlen : (chunks (List.replicate 3001 'a')).length = 2 := by
    rw [chunks, chunkList_count (List.replicate 3001 'a').length _ le_rfl,
      List.length_replicate]
    decide
  obtain ⟨c1, c2, hc⟩ := List.length_eq_two.mp hlen
  have heq : text_to_speech_chunk_files (List.replicate 3001 'a')
      (fun i => if i = 0 then ChunkOutcome.ok else ChunkOutcome.loadFails) =
      ⟨false, [2]⟩ := by
    rw [text_to_speech_chunk_files, hc]
    rfl
  refine ⟨heq, ?_⟩
  rw [heq]
  simp

/-- C9, amended: on the all-success path every transient chunk file is
    removed before `text_to_speech` returns, and on any path — including a
    failing chunk — at most one chunk file (the one whose audio-loading
    step failed after it was written) outlives the call. -/
theorem text_to_speech_chunk_files_cleanup (text : List Char)
    (outcome : Nat → ChunkOutcome) :
    ((∀ i, outcome i = ChunkOutcome.ok) →
      text_to_speech_chunk_files text outcome = ⟨true, []⟩) ∧
    (text_to_speech_chunk_files text outcome).leftover.length ≤ 1 :=
  ⟨fun hok => ttsChunkLoop_all_ok outcome hok (chunks text) 0,
   ttsChunkLoop_leftover_le_one outcome (chunks text) 0⟩

/-- Witness for C9's amended statement at a concrete input: a short text
    whose single chunk succeeds leaves no chunk file behind. -/
theorem text_to_speech_chunk_files_cleanup_witness :
    text_to_speech_chunk_files "Hello".toList (fun _ => ChunkOutcome.ok) =
      ⟨true, []⟩ ∧
    (text_to_speech_chunk_files "Hello".toList
        (fun _ => ChunkOutcome.ok)).leftover.length ≤ 1 :=
  ⟨(text_to_speech_chunk_files_cleanup "Hello".toList
      (fun _ => ChunkOutcome.ok)).1 (fun _ => rfl),
   (text_to_speech_chunk_files_cleanup "Hello".toList
      (fun _ => ChunkOutcome.ok)).2⟩

/-! ### Sanity checks of the Python-level helpers -/

example : pystrip "  a b\t\n".toList = "a b".toList := by decide

example : readlines "a\n\nb".toList = ["a\n".toList, "\n".toList, ['b']] := by
  decide

example : chapter_pattern_match (lower "Chapter 12 The End".toList) = true := by
  decide

example : chapter_pattern_match (lower "SECTION  7".toList) = true := by decide

example : chapter_pattern_match (lower "Part 3: Shadows".toList) = true := by
  decide

example : chapter_pattern_match (lower "chapters 1".toList) = false := by decide

example : chapter_pattern_match (lower "chapter one".toList) = false := by
  decide

example : chapter_pattern_match (lower "the chapter 1".toList) = false := by
  decide

example : chunks "ab".toList = ["ab".toList] := by decide

example : base_filename_of "input_files/my.book.pdf".toList =
    "my.book".toList := by decide

example : base_filename_of ".hidden".toList = ".hidden".toList := by decide

example : extract_chapters [] = .ok [] := rfl

example : extract_chapters [[], []] = .ok [] := rfl

end PdfToSpeech
